/-
  Verification of the backtrader broker subsystem.

  The repository ships the broker layer (broker.py, brokers/ibbroker.py,
  brokers/oandabroker.py, brokers/vcbroker.py) together with unit tests for
  Position, Order and CommissionInfo.  The position/order/comminfo modules
  themselves are not part of the shipped sources; where a definition below
  embeds one of those, its doc comment says `Modelled from the spec:` and the
  definition follows the specification text (section 4.2 for the position
  algebra, 4.1 for the order ledger, 4.3 for the commission model).
  Everything else is translated directly from the Python sources.

  Numbers are embedded as rationals; Python dictionaries become function
  maps `Nat -> Option _` (or with an explicit default for defaultdicts).
-/
import Mathlib

/-! ## Position accounting (spec section 4.2) -/

/-- Sign of a rational: 1, -1 or 0, mirroring the `sign` function the spec
uses to state the position-update case split. -/
def qsign (x : ℚ) : Int :=
  if 0 < x then 1 else if x < 0 then -1 else 0

/-- Modelled from the spec: the Position ledger `{size, price}` of
position.py, which is absent from the shipped sources (only its unit test
tests/test_position.py is present). -/
structure Position where
  size : ℚ
  price : ℚ
deriving DecidableEq, Repr

/-- The quadruple `(newSize, newPrice, opened, closed)` returned by
`Position.update`. -/
structure PosUpdate where
  size : ℚ
  price : ℚ
  opened : ℚ
  closed : ℚ
deriving DecidableEq, Repr

/-- Modelled from the spec: `Position.update(deltaSize, fillPrice)`
(position.py is absent from the shipped sources).  Spec section 4.2:
* `size == 0` or `sign(size) == sign(size+deltaSize)` with
  `|size+deltaSize| >= |size|`: weighted-average price, `opened = deltaSize`,
  `closed = 0`;
* `sign(deltaSize) != sign(size)` with `|deltaSize| <= |size|`: price
  unchanged, `opened = 0`, `closed = deltaSize`;
* otherwise (reversal): price restarts at the fill price, `closed = -size`,
  `opened = size+deltaSize`.
The updated position is `{size := r.size, price := r.price}` for the
returned `r`. -/
def Position.update (p : Position) (dsize fillPrice : ℚ) : PosUpdate :=
  if p.size = 0 ∨
      (qsign p.size = qsign (p.size + dsize) ∧ |p.size| ≤ |p.size + dsize|) then
    { size := p.size + dsize
      price := (p.size * p.price + dsize * fillPrice) / (p.size + dsize)
      opened := dsize
      closed := 0 }
  else if qsign dsize ≠ qsign p.size ∧ |dsize| ≤ |p.size| then
    { size := p.size + dsize, price := p.price, opened := 0, closed := dsize }
  else
    { size := p.size + dsize, price := fillPrice,
      opened := p.size + dsize, closed := -p.size }

theorem qsign_pos {x : ℚ} (h : 0 < x) : qsign x = 1 := by
  simp [qsign, h]

theorem qsign_neg {x : ℚ} (h : x < 0) : qsign x = -1 := by
  simp [qsign, h, not_lt_of_lt h]

/-- Claim C1: for a position with `size ≠ 0` and an update whose delta has
the opposite sign and strictly larger magnitude (a reversal), `update`
returns `newSize = size + delta`, `newPrice = fillPrice`,
`closed = -size` and `opened = size + delta`. -/
theorem position_update_reversal (p : Position) (dsize fillPrice : ℚ)
    (hopp : p.size * dsize < 0) (hmag : |p.size| < |dsize|) :
    p.update dsize fillPrice =
      { size := p.size + dsize, price := fillPrice,
        opened := p.size + dsize, closed := -p.size } := by
  have hs0 : p.size ≠ 0 := by
    rintro h; rw [h] at hopp; simp at hopp
  -- the new size has the strict opposite sign of the old one
  have hsign : qsign p.size ≠ qsign (p.size + dsize) := by
    rcases lt_or_gt_of_ne hs0 with hneg | hpos
    · -- old size negative, so the delta is positive and larger in magnitude
      have hd : 0 < dsize := by
        by_contra hge
        push_neg at hge
        have : 0 ≤ p.size * dsize := mul_nonneg_of_nonpos_of_nonpos hneg.le hge
        linarith
      have hnew : 0 < p.size + dsize := by
        have h1 := abs_of_neg hneg
        have h2 := abs_of_pos hd
        rw [h1, h2] at hmag
        linarith
      rw [qsign_neg hneg, qsign_pos hnew]
      decide
    · have hd : dsize < 0 := by
        by_contra hge
        push_neg at hge
        have : 0 ≤ p.size * dsize := mul_nonneg hpos.le hge
        linarith
      have hnew : p.size + dsize < 0 := by
        have h1 := abs_of_pos hpos
        have h2 := abs_of_neg hd
        rw [h1, h2] at hmag
        linarith
      rw [qsign_pos hpos, qsign_neg hnew]
      decide
  have h1 : ¬ (p.size = 0 ∨
      (qsign p.size = qsign (p.size + dsize) ∧ |p.size| ≤ |p.size + dsize|)) := by
    rintro (h | ⟨hq, -⟩)
    · exact hs0 h
    · exact hsign hq
  have h2 : ¬ (qsign dsize ≠ qsign p.size ∧ |dsize| ≤ |p.size|) := by
    rintro ⟨-, hle⟩
    exact (not_le.mpr hmag) hle
  simp only [Position.update]
  rw [if_neg h1, if_neg h2]

/-- Witness for C1: the spec's own reversal example, from `(8, 65/6)` an
update `(-15, 17.5)` yields size `-7`, price `17.5`, opened `-7`,
closed `-8`. -/
theorem position_update_reversal_witness :
    (8 : ℚ) * (-15) < 0 ∧ |(8 : ℚ)| < |(-15 : ℚ)| ∧
    Position.update ⟨8, 65/6⟩ (-15) (35/2) =
      { size := -7, price := 35/2, opened := -7, closed := -8 } := by
  refine ⟨by norm_num, by norm_num, ?_⟩
  have h := position_update_reversal ⟨8, 65/6⟩ (-15) (35/2)
    (by norm_num) (by norm_num)
  rw [h]
  norm_num

/-- Claim C2: opening from flat or adding in the same direction stores the
weighted-average price, `opened = deltaSize` and `closed = 0`. -/
theorem position_update_same_direction (p : Position) (dsize fillPrice : ℚ)
    (h : p.size = 0 ∨
      (qsign p.size = qsign (p.size + dsize) ∧ |p.size| ≤ |p.size + dsize|)) :
    p.update dsize fillPrice =
      { size := p.size + dsize
        price := (p.size * p.price + dsize * fillPrice) / (p.size + dsize)
        opened := dsize
        closed := 0 } := by
  simp only [Position.update]
  rw [if_pos h]

/-- Witness for C2: the test's same-direction example, from `(10, 10)` an
update `(+5, 12.5)` yields size `15`, price `65/6`, opened `5`, closed `0`. -/
theorem position_update_same_direction_witness :
    ((10 : ℚ) = 0 ∨
      (qsign (10 : ℚ) = qsign ((10 : ℚ) + 5) ∧ |(10 : ℚ)| ≤ |(10 : ℚ) + 5|)) ∧
    Position.update ⟨10, 10⟩ 5 (25/2) =
      { size := 15, price := 65/6, opened := 5, closed := 0 } := by
  constructor
  · right
    constructor
    · norm_num [qsign]
    · norm_num
  · have h := position_update_same_direction ⟨10, 10⟩ 5 (25/2)
      (by right; norm_num [qsign])
    rw [h]
    norm_num

/-! ## Order execution ledger (spec section 4.1) -/

/-- One execution-ledger bit, restricted to the fields the pending-bits
claim speaks about: the fill's size and price. -/
structure ExecBit where
  size : ℚ
  price : ℚ
deriving DecidableEq, Repr

/-- Modelled from the spec: the append-only execution ledger of an Order
with the cursor that separates already-reported bits from pending bits
(order.py is absent from the shipped sources; tests/test_order.py exercises
it via `execute`, `clone` and `executed.getpending`). -/
structure OrderLedger where
  bits : List ExecBit
  reported : Nat
deriving DecidableEq, Repr

/-- Modelled from the spec: `execute` appends one ledger bit recording the
fill's size and price. -/
def OrderLedger.execute (o : OrderLedger) (size price : ℚ) : OrderLedger :=
  { o with bits := o.bits ++ [⟨size, price⟩] }

/-- Modelled from the spec: the pending bits are those appended after the
cursor. -/
def OrderLedger.getpending (o : OrderLedger) : List ExecBit :=
  o.bits.drop o.reported

/-- Modelled from the spec: cloning the order for a notification reports
exactly the bits accumulated since the previous clone and advances the
cursor past them.  Returns the pending bits the clone exposes together with
the post-clone ledger. -/
def OrderLedger.clone (o : OrderLedger) : List ExecBit × OrderLedger :=
  (o.getpending, { o with reported := o.bits.length })

/-- Fold a sequence of `execute(size, price)` calls over a ledger. -/
def OrderLedger.applyExecs (o : OrderLedger) (l : List (ℚ × ℚ)) : OrderLedger :=
  l.foldl (fun a sp => a.execute sp.1 sp.2) o

theorem applyExecs_bits (o : OrderLedger) (l : List (ℚ × ℚ)) :
    (o.applyExecs l).bits = o.bits ++ l.map (fun sp => ExecBit.mk sp.1 sp.2) := by
  induction l generalizing o with
  | nil => simp [OrderLedger.applyExecs]
  | cons hd tl ih =>
      simp only [OrderLedger.applyExecs, List.foldl_cons] at *
      rw [ih]
      simp [OrderLedger.execute]

theorem applyExecs_reported (o : OrderLedger) (l : List (ℚ × ℚ)) :
    (o.applyExecs l).reported = o.reported := by
  induction l generalizing o with
  | nil => rfl
  | cons hd tl ih =>
      simp only [OrderLedger.applyExecs, List.foldl_cons] at *
      rw [ih]
      rfl

/-- Claim C3: starting from a ledger whose bits have all been reported by a
previous clone (or from a fresh order), any sequence of executions followed
by a clone yields as pending exactly the bits of those executions, in call
order, each with the size and price of its `execute` call; previously
reported bits do not reappear, and the post-clone ledger has no pending
bits left. -/
theorem order_clone_pending_exact (o : OrderLedger) (l : List (ℚ × ℚ))
    (h : o.reported = o.bits.length) :
    (o.applyExecs l).clone.1 = l.map (fun sp => ExecBit.mk sp.1 sp.2) ∧
    (o.applyExecs l).clone.2.getpending = [] := by
  constructor
  · simp only [OrderLedger.clone, OrderLedger.getpending,
      applyExecs_bits, applyExecs_reported, h]
    simp
  · simp [OrderLedger.clone, OrderLedger.getpending]

/-- Witness for C3: the scenario of tests/test_order.py — execute
`(10, 1.0)`, `(20, 1.1)`, clone (pending is those two bits), then execute
`(30, 1.2)`, `(40, 1.3)` and clone again: pending is exactly the two new
bits. -/
theorem order_clone_pending_exact_witness :
    (OrderLedger.reported ⟨[], 0⟩ = List.length (OrderLedger.bits ⟨[], 0⟩)) ∧
    (OrderLedger.applyExecs ⟨[], 0⟩ [(10, 1), (20, 11/10)]).clone.1 =
      [⟨10, 1⟩, ⟨20, 11/10⟩] ∧
    ((OrderLedger.applyExecs ⟨[], 0⟩ [(10, 1), (20, 11/10)]).clone.2.applyExecs
        [(30, 6/5), (40, 13/10)]).clone.1 = [⟨30, 6/5⟩, ⟨40, 13/10⟩] := by
  refine ⟨rfl, ?_, ?_⟩
  · exact (order_clone_pending_exact ⟨[], 0⟩ [(10, 1), (20, 11/10)] rfl).1
  · exact (order_clone_pending_exact
      (OrderLedger.applyExecs ⟨[], 0⟩ [(10, 1), (20, 11/10)]).clone.2
      [(30, 6/5), (40, 13/10)] rfl).1

/-! ## Commission model (spec section 4.3) -/

/-- Modelled from the spec: the CommissionScheme configuration of
comminfo.py, which is absent from the shipped sources (only its unit test
tests/test_comminfo.py is present).  `commission` is the rate,
`percOfPrice` the percentage-of-price flag, `stocklike` the notional
regime flag. -/
structure CommInfoBase where
  commission : ℚ
  margin : ℚ
  mult : ℚ
  percOfPrice : Bool
  stocklike : Bool
deriving DecidableEq, Repr

/-- Modelled from the spec: `getCommission(size, price)` is
`size*price*rate` if percentage-of-price and stocklike, else `size*rate`
(flat per-unit) for margin-based instruments. -/
def CommInfoBase.getcommission (c : CommInfoBase) (size price : ℚ) : ℚ :=
  if c.percOfPrice ∧ c.stocklike then size * price * c.commission
  else size * c.commission

/-- Claim C7: the commission is `size*price*rate` for percentage-of-price
stocklike schemes, and the flat per-unit `size*rate` otherwise. -/
theorem comminfo_getcommission_cases (c : CommInfoBase) (size price : ℚ) :
    (c.percOfPrice = true ∧ c.stocklike = true →
      c.getcommission size price = size * price * c.commission) ∧
    (¬ (c.percOfPrice = true ∧ c.stocklike = true) →
      c.getcommission size price = size * c.commission) := by
  constructor
  · intro h
    simp [CommInfoBase.getcommission, h.1, h.2]
  · intro h
    rw [CommInfoBase.getcommission, if_neg]
    simpa using h

/-- Witness for C7: the test's schemes — a stocklike percentage scheme at
rate `1/2` charges `100*10*(1/2) = 500` on size 100 at price 10, while the
margin-based scheme at the same rate charges the flat `100*(1/2) = 50`. -/
theorem comminfo_getcommission_cases_witness :
    ((true = true ∧ true = true) ∧
      CommInfoBase.getcommission ⟨1/2, 0, 1, true, true⟩ 100 10 = 500) ∧
    (¬ (true = true ∧ false = true) ∧
      CommInfoBase.getcommission ⟨1/2, 0, 1, true, false⟩ 100 10 = 50) := by
  constructor
  · refine ⟨⟨rfl, rfl⟩, ?_⟩
    have h := (comminfo_getcommission_cases ⟨1/2, 0, 1, true, true⟩ 100 10).1
      ⟨rfl, rfl⟩
    rw [h]
    norm_num
  · refine ⟨by simp, ?_⟩
    have h := (comminfo_getcommission_cases ⟨1/2, 0, 1, true, false⟩ 100 10).2
      (by simp)
    rw [h]
    norm_num

/-! ## Commission-scheme registry (broker.py, ibbroker.py) -/

/-- A commission scheme as held by a broker: either a registered
`CommInfoBase`-style object or the `IBCommInfo(mult, stocklike)` object the
IB adapter constructs on the fly (ibbroker.py line 479). -/
inductive CommScheme
  | base (c : CommInfoBase)
  | ib (mult : ℚ) (stocklike : Bool)
deriving DecidableEq, Repr

/-- The broker's `comminfo` dictionary: string-named entries plus the entry
under the `None` key, which `BrokerBase.init` guarantees to exist. -/
structure CommRegistry where
  named : String → Option CommScheme
  dflt : CommScheme

/-- `BrokerBase.getcommissioninfo` (broker.py lines 122-131): return the
scheme registered under `data._name` when present, else the scheme under
the `None` key.  OandaBroker inherits this method unchanged. -/
def BrokerBase.getcommissioninfo (r : CommRegistry) (dataName : String) :
    CommScheme :=
  match r.named dataName with
  | some c => c
  | none => r.dflt

/-- The fields of an IB contract that `IBBroker.getcommissioninfo` reads:
`m_multiplier` (whose `float(...)` parse may fail, modelled as `none`) and
`m_secType`. -/
structure IBContract where
  multiplier : Option ℚ
  secType : String
deriving DecidableEq, Repr

/-- `IBBroker.getcommissioninfo` (ibbroker.py lines 467-479): ignores the
`comminfo` registry entirely and builds an `IBCommInfo` from the data's
contract — `mult` from `m_multiplier` (1.0 when unparsable), stocklike
unless the security type is FUT/OPT/FOP. -/
def IBBroker.getcommissioninfo (contract : IBContract) : CommScheme :=
  CommScheme.ib (contract.multiplier.getD 1)
    (!(["FUT", "OPT", "FOP"].contains contract.secType))

/-- A concrete scheme registered under an instrument name, for the C8
counterexample. -/
def c8RegisteredScheme : CommInfoBase := ⟨1/2, 0, 1, true, true⟩

/-- A registry holding `c8RegisteredScheme` under the name "AAPL", for the
C8 counterexample. -/
def c8Registry : CommRegistry :=
  { named := fun n => if n = "AAPL" then some (.base c8RegisteredScheme) else none
    dflt := .base ⟨0, 0, 1, true, false⟩ }

/-- Counterexample to C8 as stated: a scheme is registered under the
instrument's name ("AAPL", a stock contract), the base-class lookup does
return it, yet the IB adapter's `getcommissioninfo` returns a freshly
constructed `IBCommInfo` instead of the registered scheme — the fallback
behaviour does not hold for every adapter. -/
theorem ib_getcommissioninfo_ignores_registry :
    c8Registry.named "AAPL" = some (.base c8RegisteredScheme) ∧
    BrokerBase.getcommissioninfo c8Registry "AAPL" =
      CommScheme.base c8RegisteredScheme ∧
    IBBroker.getcommissioninfo ⟨none, "STK"⟩ ≠
      CommScheme.base c8RegisteredScheme := by
  refine ⟨rfl, rfl, ?_⟩
  simp [IBBroker.getcommissioninfo]

/-- Claim C8 (amended): `BrokerBase.getcommissioninfo` — inherited by
OandaBroker — returns the scheme registered under the instrument's name
when one exists and otherwise the default registered under the `None` key;
`IBBroker` however overrides the lookup and always returns an `IBCommInfo`
built from the contract (multiplier, security type), never consulting the
registry. -/
theorem broker_getcommissioninfo_fallback (r : CommRegistry)
    (dataName : String) (ct : IBContract) :
    (∀ c, r.named dataName = some c →
      BrokerBase.getcommissioninfo r dataName = c) ∧
    (r.named dataName = none →
      BrokerBase.getcommissioninfo r dataName = r.dflt) ∧
    IBBroker.getcommissioninfo ct =
      CommScheme.ib (ct.multiplier.getD 1)
        (!(["FUT", "OPT", "FOP"].contains ct.secType)) := by
  refine ⟨?_, ?_, rfl⟩
  · intro c hc
    simp [BrokerBase.getcommissioninfo, hc]
  · intro hc
    simp [BrokerBase.getcommissioninfo, hc]

/-- Witness for the amended C8: on `c8Registry`, the name "AAPL" resolves
to the registered scheme, an unknown name falls back to the default, and
the IB lookup on a stock contract yields `IBCommInfo(1, stocklike)`. -/
theorem broker_getcommissioninfo_fallback_witness :
    BrokerBase.getcommissioninfo c8Registry "AAPL" =
      CommScheme.base c8RegisteredScheme ∧
    BrokerBase.getcommissioninfo c8Registry "MSFT" = c8Registry.dflt ∧
    IBBroker.getcommissioninfo ⟨none, "STK"⟩ = CommScheme.ib 1 true := by
  obtain ⟨h1, h2, h3⟩ :=
    broker_getcommissioninfo_fallback c8Registry "AAPL" ⟨none, "STK"⟩
  refine ⟨h1 _ rfl, ?_, h3⟩
  obtain ⟨-, h2', -⟩ :=
    broker_getcommissioninfo_fallback c8Registry "MSFT" ⟨none, "STK"⟩
  exact h2' rfl

/-! ## IB commission apportionment (ibbroker.py push_commissionreport) -/

/-- `IBCommInfo.getoperationcost` (ibbroker.py): `abs(size) * price`. -/
def IBCommInfo.getoperationcost (size price : ℚ) : ℚ :=
  |size| * price

/-- The values `push_commissionreport` passes to `order.execute` for one
finalized fill. -/
structure IBFillRecord where
  size : ℚ
  price : ℚ
  closed : ℚ
  closedvalue : ℚ
  closedcomm : ℚ
  opened : ℚ
  openedvalue : ℚ
  openedcomm : ℚ
  pnl : ℚ
  psize : ℚ
  pprice : ℚ
deriving DecidableEq, Repr

/-- The fill-finalisation core of `IBBroker.push_commissionreport`
(ibbroker.py lines 682-716): derive the signed size from the execution's
side and share count, run the position update, split the venue-reported
commission proportionally to the closed part (`closedcomm = comm * closed /
size`, `openedcomm = comm - closedcomm`), cost the two legs with
`IBCommInfo.getoperationcost`, and take the venue's realized PNL only when
something was closed.  The position algebra itself is the spec-modelled
`Position.update` (position.py is not among the shipped sources). -/
def push_commissionreport_fill (pos : Position) (sideBuy : Bool)
    (shares price comm realizedPNL : ℚ) : IBFillRecord :=
  let pprice_orig := pos.price
  let size := if sideBuy then shares else -shares
  let u := pos.update size price
  let closedcomm := comm * u.closed / size
  let openedcomm := comm - closedcomm
  let closedvalue := IBCommInfo.getoperationcost u.closed pprice_orig
  let openedvalue := IBCommInfo.getoperationcost u.opened price
  let pnl := if u.closed ≠ 0 then realizedPNL else 0
  { size := size, price := price, closed := u.closed
    closedvalue := closedvalue, closedcomm := closedcomm
    opened := u.opened, openedvalue := openedvalue, openedcomm := openedcomm
    pnl := pnl, psize := u.size, pprice := u.price }

/-- Claim C9: for every fill finalized by the IB commission-report handler
with nonzero fill size, the closing and opening commission portions sum
exactly to the venue-reported commission; the closing portion is 0 when
nothing was closed and equals the full commission when the fill only
closes. -/
theorem ib_commission_apportionment (pos : Position) (sideBuy : Bool)
    (shares price comm realizedPNL : ℚ) (h : shares ≠ 0) :
    (push_commissionreport_fill pos sideBuy shares price comm
        realizedPNL).closedcomm +
      (push_commissionreport_fill pos sideBuy shares price comm
        realizedPNL).openedcomm = comm ∧
    ((push_commissionreport_fill pos sideBuy shares price comm
        realizedPNL).closed = 0 →
      (push_commissionreport_fill pos sideBuy shares price comm
        realizedPNL).closedcomm = 0) ∧
    ((push_commissionreport_fill pos sideBuy shares price comm
        realizedPNL).closed =
      (push_commissionreport_fill pos sideBuy shares price comm
        realizedPNL).size →
      (push_commissionreport_fill pos sideBuy shares price comm
        realizedPNL).closedcomm = comm) := by
  have hsize : (if sideBuy then shares else -shares) ≠ 0 := by
    cases sideBuy <;> simp [h]
  simp only [push_commissionreport_fill]
  refine ⟨by ring, ?_, ?_⟩
  · intro hc
    simp only [hc]
    simp
  · intro hc
    simp only [hc]
    rw [mul_div_assoc, div_self hsize, mul_one]

/-- Witness for C9: a buy of 5 shares at price 12 against a short position
of size -3: the update closes 3... the closed part is the prior short
position; with commission 10 the split sums back to 10. -/
theorem ib_commission_apportionment_witness :
    (5 : ℚ) ≠ 0 ∧
    ((push_commissionreport_fill ⟨-3, 11⟩ true 5 12 10 7).closedcomm +
      (push_commissionreport_fill ⟨-3, 11⟩ true 5 12 10 7).openedcomm = 10) := by
  refine ⟨by norm_num, ?_⟩
  exact (ib_commission_apportionment ⟨-3, 11⟩ true 5 12 10 7 (by norm_num)).1

/-! ## Order lifecycle statuses (spec section 4.1) -/

/-- Order lifecycle statuses.  `PartFilled` renders the partially-filled
status. -/
inductive OStatus
  | Created
  | Submitted
  | Accepted
  | PartFilled
  | Completed
  | Cancelled
  | Expired
  | Margin
  | Rejected
deriving DecidableEq, Repr

/-- Modelled from the spec: `Order.alive()` is true while the order is
Submitted, Accepted or partially filled (order.py is absent from the
shipped sources). -/
def OStatus.alive : OStatus → Bool
  | .Submitted => true
  | .Accepted => true
  | .PartFilled => true
  | _ => false

/-! ## OandaBroker (brokers/oandabroker.py)

Python keeps one mutable order object per reference, aliased from
`self.orders`, `self.opending` and `self.brackets`.  The embedding keeps
the single source of truth in the `orders` map and stores plain references
in `brackets`; `opending` holds the still-unregistered order records
themselves, as in the source.  The execution ledger of an order is modelled
separately by `OrderLedger`; the broker-side record tracks the fields the
bracket logic reads: status, remaining size and the activation flag. -/

/-- The slice of an Oanda order the broker logic reads and writes. -/
structure OandaOrder where
  ref : Nat
  parentRef : Option Nat
  transmit : Bool
  dataName : String
  status : OStatus
  remsize : ℚ
  activated : Bool
deriving DecidableEq, Repr

/-- `getattr(order.parent, 'ref', order.ref)`: the bracket group key. -/
def OandaOrder.pref (o : OandaOrder) : Nat :=
  o.parentRef.getD o.ref

/-- The OandaBroker state: registered orders, the notification queue
(`None` marks a cycle boundary), pending non-transmitted orders per group,
confirmed bracket groups, positions, and the venue calls made so far
(`o.order_create` with the orders it carried, `o.order_cancel`) plus the
`put_notification` log. -/
structure OandaBroker where
  orders : Nat → Option OandaOrder
  notifs : List (Option OandaOrder)
  opending : Nat → List OandaOrder
  brackets : Nat → Option (List Nat)
  positions : String → Position
  venueCreates : List (List Nat)
  venueCancels : List Nat
  log : List String

/-- A freshly constructed OandaBroker (`__init__`): empty containers,
positions defaulting to the flat `Position()`. -/
def OandaBroker.empty : OandaBroker :=
  { orders := fun _ => none
    notifs := []
    opending := fun _ => []
    brackets := fun _ => none
    positions := fun _ => ⟨0, 0⟩
    venueCreates := []
    venueCancels := []
    log := [] }

/-- Store an order under its reference (Python mutates the aliased object;
here the `orders` map is the single source of truth). -/
def OandaBroker.setOrder (st : OandaBroker) (o : OandaOrder) : OandaBroker :=
  { st with orders := fun r => if r = o.ref then some o else st.orders r }

/-- `OandaBroker.notify`: append a clone of the order to the notification
queue. -/
def OandaBroker.notify (st : OandaBroker) (o : OandaOrder) : OandaBroker :=
  { st with notifs := st.notifs ++ [some o] }

/-- `OandaBroker._bracketnotif`: the last two members (`br[-2:]`) of the
order's bracket group, or `[]` when the group is not registered. -/
def OandaBroker.bracketnotif (st : OandaBroker) (o : OandaOrder) : List Nat :=
  match st.brackets o.pref with
  | some br => br.drop (br.length - 2)
  | none => []

/-- `o.activate()` on the order stored under `r`: mark it activated. -/
def OandaBroker.activateRef (st : OandaBroker) (r : Nat) : OandaBroker :=
  match st.orders r with
  | none => st
  | some o => st.setOrder { o with activated := true }

mutual

/-- `OandaBroker._cancel(oref)` (oandabroker.py lines 287-294): set the
order Cancelled, notify, then cascade through `_bracketize(cancel=True)`.
`fuel` bounds the bracket-cascade recursion (each recursive entry follows a
`brackets.pop`, so any fuel larger than the number of registered groups
computes the Python result); a missing reference would raise in Python and
leaves the state unchanged here. -/
def OandaBroker.cancelRef (fuel : Nat) (st : OandaBroker) (oref : Nat) :
    OandaBroker :=
  match fuel with
  | 0 => st
  | fuel + 1 =>
    match st.orders oref with
    | none => st
    | some order =>
      let order1 := { order with status := OStatus.Cancelled }
      let st1 := (st.setOrder order1).notify order1
      OandaBroker.bracketize fuel st1 order1 true

/-- `OandaBroker._bracketize(order, cancel)` (oandabroker.py lines
313-346): pop the order's bracket group; when not cancelling, a popped
3-group means the parent filled — activate both children and reinsert
them — while a popped 2-group means a child filled — cancel the sibling;
when cancelling, cancel every member still alive. -/
def OandaBroker.bracketize (fuel : Nat) (st : OandaBroker)
    (order : OandaOrder) (cancel : Bool) : OandaBroker :=
  match fuel with
  | 0 => st
  | fuel + 1 =>
    let pref := order.pref
    match st.brackets pref with
    | none => st
    | some br =>
      let st1 : OandaBroker :=
        { st with brackets := fun r => if r = pref then none else st.brackets r }
      if cancel then
        br.foldl (fun s r =>
          match s.orders r with
          | none => s
          | some o =>
            if o.status.alive then OandaBroker.cancelRef fuel s r else s) st1
      else
        match br with
        | [_, s, t] =>
          let st2 := (st1.activateRef s).activateRef t
          { st2 with
            brackets := fun r => if r = pref then some [s, t] else st2.brackets r }
        | [a, b] =>
          if a = order.ref then OandaBroker.cancelRef fuel st1 b
          else if b = order.ref then OandaBroker.cancelRef fuel st1 a
          else st1
        | _ => st1

end

/-- `OandaBroker._accept(oref)` (oandabroker.py lines 276-285): accept the
order, notify, then accept and notify the bracket children returned by
`_bracketnotif`. -/
def OandaBroker.acceptRef (st : OandaBroker) (oref : Nat) : OandaBroker :=
  match st.orders oref with
  | none => st
  | some order =>
    let order1 := { order with status := OStatus.Accepted }
    let st1 := (st.setOrder order1).notify order1
    (st1.bracketnotif order1).foldl (fun s r =>
      match s.orders r with
      | none => s
      | some o =>
        let o1 := { o with status := OStatus.Accepted }
        (s.setOrder o1).notify o1) st1

/-- `OandaBroker._transmit(order)` (oandabroker.py lines 423-461): an order
with `transmit` that is a child completes its bracket — pop the two
buffered orders, register all three, record the group and make ONE
`order_create` call carrying all three; a transmitting parent is sent
alone; a non-transmitting order is only buffered in `opending`. -/
def OandaBroker.transmitOrder (st : OandaBroker) (order : OandaOrder) :
    OandaBroker × OandaOrder :=
  let oref := order.ref
  let pref := order.pref
  if order.transmit then
    if oref ≠ pref then
      match st.opending pref with
      | [parent, stopside] =>
        let takeside := order
        let st1 : OandaBroker :=
          { st with opending := fun r => if r = pref then [] else st.opending r }
        let st2 : OandaBroker :=
          { st1 with orders := fun r =>
              if r = parent.ref then some parent
              else if r = stopside.ref then some stopside
              else if r = takeside.ref then some takeside
              else st1.orders r }
        let st3 : OandaBroker :=
          { st2 with
            brackets := fun r =>
              if r = pref then some [parent.ref, stopside.ref, takeside.ref]
              else st2.brackets r
            venueCreates :=
              st2.venueCreates ++ [[parent.ref, stopside.ref, takeside.ref]] }
        (st3, takeside)
      | _ => (st, order)
    else
      ({ st with
          orders := fun r => if r = oref then some order else st.orders r
          venueCreates := st.venueCreates ++ [[oref]] }, order)
  else
    ({ st with opending := fun r =>
        if r = pref then st.opending pref ++ [order] else st.opending r },
      order)

/-- The warning `_fill` logs for a fill on a dead order with no registered
bracket group. -/
def oandaFillNotBracketMsg (oref : Nat) : String :=
  "Order fill received for " ++ toString oref ++
    " but order is no longer alive and is not a bracket. Unknown situation"

/-- The warning `_fill` logs for a dead bracket order with an unknown
transaction type. -/
def oandaFillUnknownTypeMsg (oref : Nat) : String :=
  "Order fill received for " ++ toString oref ++
    " but order is no longer alive and is a bracket. Unknown situation"

/-- The execution step of `_fill` once the target order is resolved:
update the position, reduce the remaining size, and finish with
`partial()` or `completed()` plus `_bracketize`. -/
def OandaBroker.fillExec (fuel : Nat) (st : OandaBroker) (order : OandaOrder)
    (size price : ℚ) : OandaBroker :=
  let pos := st.positions order.dataName
  let u := pos.update size price
  let st1 : OandaBroker :=
    { st with positions := fun d =>
        if d = order.dataName then ⟨u.size, u.price⟩ else st.positions d }
  let order1 := { order with remsize := order.remsize - size }
  if order1.remsize ≠ 0 then
    let order2 := { order1 with status := OStatus.PartFilled }
    (st1.setOrder order2).notify order2
  else
    let order2 := { order1 with status := OStatus.Completed }
    let st2 := (st1.setOrder order2).notify order2
    OandaBroker.bracketize fuel st2 order2 false

/-- `OandaBroker._fill(oref, size, price, ttype)` (oandabroker.py lines
348-421): fills on a live order execute directly; fills on a dead order
are resolved through its bracket group (`STOP_LOSS_FILLED` picks
`br[-2]`, `TAKE_PROFIT_FILLED` picks `br[-1]`) and otherwise dropped with
a logged warning; an unregistered reference would raise in Python and
leaves the state unchanged here. -/
def OandaBroker.fill (fuel : Nat) (st : OandaBroker) (oref : Nat)
    (size price : ℚ) (ttype : String) : OandaBroker :=
  match st.orders oref with
  | none => st
  | some order0 =>
    if order0.status.alive then st.fillExec fuel order0 size price
    else
      match st.brackets order0.pref with
      | none => { st with log := st.log ++ [oandaFillNotBracketMsg oref] }
      | some br =>
        if ttype = "STOP_LOSS_FILLED" then
          match (br.get? (br.length - 2)).bind st.orders with
          | some order => st.fillExec fuel order size price
          | none => st
        else if ttype = "TAKE_PROFIT_FILLED" then
          match (br.get? (br.length - 1)).bind st.orders with
          | some order => st.fillExec fuel order size price
          | none => st
        else
          { st with log := st.log ++ [oandaFillUnknownTypeMsg oref] }

/-- `OandaBroker.cancel(order)` (oandabroker.py lines 501-509): look the
order up (a missing reference would raise in Python; unchanged here), do
nothing when the order is already Cancelled, otherwise request
`order_cancel` from the venue. -/
def OandaBroker.cancel (st : OandaBroker) (order : OandaOrder) :
    OandaBroker :=
  match st.orders order.ref with
  | none => st
  | some _ =>
    if order.status = OStatus.Cancelled then st
    else { st with venueCancels := st.venueCancels ++ [order.ref] }

/-! ## IBBroker status handling (brokers/ibbroker.py) -/

/-- The slice of an IB order the status/cancel logic reads: its id, its
lifecycle status and the `_willexpire` flag set by `push_orderstate`. -/
structure IBOrderRec where
  orderId : Nat
  status : OStatus
  willexpire : Bool
deriving DecidableEq, Repr

/-- An `orderStatus` venue message: order id, status string and filled
quantity. -/
structure IBMsg where
  orderId : Nat
  status : String
  filled : ℚ
deriving DecidableEq, Repr

/-- The IBBroker state touched by `push_orderstatus` and `cancel`: the
`orderbyid` map, the notification queue, the `ordstatus` buffer of
Submitted/Filled messages keyed by order id and cumulative filled size,
and the `cancelOrder` calls made to the venue. -/
structure IBBrokerState where
  orderbyid : Nat → Option IBOrderRec
  notifs : List (Option IBOrderRec)
  ordstatus : Nat → ℚ → Option IBMsg
  venueCancels : List Nat

/-- Store an order under its id. -/
def IBBrokerState.setOrder (st : IBBrokerState) (o : IBOrderRec) :
    IBBrokerState :=
  { st with orderbyid := fun r => if r = o.orderId then some o else st.orderbyid r }

/-- `IBBroker.notify`: append a clone of the order to the notification
queue. -/
def IBBrokerState.notify (st : IBBrokerState) (o : IBOrderRec) :
    IBBrokerState :=
  { st with notifs := st.notifs ++ [some o] }

/-- Buffer a Submitted/Filled message in `ordstatus[orderId][filled]`. -/
def IBBrokerState.bufferStatus (st : IBBrokerState) (msg : IBMsg) :
    IBBrokerState :=
  { st with ordstatus := fun oid f =>
      if oid = msg.orderId ∧ f = msg.filled then some msg
      else st.ordstatus oid f }

/-- `IBBroker.push_orderstatus(msg)` (ibbroker.py lines 560-664): messages
for unknown order ids are dropped; `Submitted` with zero fill accepts the
order once (duplicate detection); `Cancelled` expires or cancels once
(duplicates for already Cancelled/Expired orders are absorbed);
`PendingCancel` does nothing; `Inactive` rejects once; `Submitted`/`Filled`
with fills and `PendingSubmit`/`PreSubmitted` with nonzero fills are
buffered in `ordstatus` until the commission report arrives; anything else
is ignored. -/
def IBBrokerState.push_orderstatus (st : IBBrokerState) (msg : IBMsg) :
    IBBrokerState :=
  match st.orderbyid msg.orderId with
  | none => st
  | some order =>
    if msg.status = "Submitted" ∧ msg.filled = 0 then
      if order.status = OStatus.Accepted then st
      else
        let o1 := { order with status := OStatus.Accepted }
        (st.setOrder o1).notify o1
    else if msg.status = "Cancelled" then
      if order.status = OStatus.Cancelled ∨ order.status = OStatus.Expired then
        st
      else if order.willexpire then
        let o1 := { order with status := OStatus.Expired }
        (st.setOrder o1).notify o1
      else
        let o1 := { order with status := OStatus.Cancelled }
        (st.setOrder o1).notify o1
    else if msg.status = "PendingCancel" then
      st
    else if msg.status = "Inactive" then
      if order.status = OStatus.Rejected then st
      else
        let o1 := { order with status := OStatus.Rejected }
        (st.setOrder o1).notify o1
    else if msg.status = "Submitted" ∨ msg.status = "Filled" then
      st.bufferStatus msg
    else if msg.status = "PendingSubmit" ∨ msg.status = "PreSubmitted" then
      if msg.filled ≠ 0 then st.bufferStatus msg else st
    else
      st

/-- `IBBroker.cancel(order)` (ibbroker.py lines 417-429): an order id not
in `orderbyid` is not cancellable; an already-Cancelled order is left
alone; otherwise `cancelOrder` is requested from the venue. -/
def IBBrokerState.cancel (st : IBBrokerState) (order : IBOrderRec) :
    IBBrokerState :=
  match st.orderbyid order.orderId with
  | none => st
  | some _ =>
    if order.status = OStatus.Cancelled then st
    else { st with venueCancels := st.venueCancels ++ [order.orderId] }

/-- Claim C5: a venue message matching no known order id is dropped by
`IBBroker.push_orderstatus` with no state change, and an Oanda fill for an
order that is no longer alive and belongs to no registered bracket group
is dropped by `OandaBroker._fill` with a logged warning and no other state
change; neither raises. -/
theorem unknown_venue_message_dropped :
    (∀ (st : IBBrokerState) (msg : IBMsg),
      st.orderbyid msg.orderId = none → st.push_orderstatus msg = st) ∧
    (∀ (st : OandaBroker) (fuel oref : Nat) (size price : ℚ) (ttype : String)
      (o : OandaOrder),
      st.orders oref = some o → o.status.alive = false →
      st.brackets o.pref = none →
      OandaBroker.fill fuel st oref size price ttype =
        { st with log := st.log ++ [oandaFillNotBracketMsg oref] }) := by
  constructor
  · intro st msg h
    simp [IBBrokerState.push_orderstatus, h]
  · intro st fuel oref size price ttype o h1 h2 h3
    simp [OandaBroker.fill, h1, h2, h3]

/-- Witness for C5: on a broker with no orders at all, an orderStatus
message for id 7 changes nothing, and an Oanda fill for a dead order with
no bracket only appends the warning. -/
theorem unknown_venue_message_dropped_witness :
    (({ orderbyid := fun _ => none, notifs := [],
        ordstatus := fun _ _ => none,
        venueCancels := [] } : IBBrokerState).orderbyid 7 = none ∧
      IBBrokerState.push_orderstatus
        { orderbyid := fun _ => none, notifs := [],
          ordstatus := fun _ _ => none, venueCancels := [] }
        ⟨7, "Filled", 3⟩ =
        { orderbyid := fun _ => none, notifs := [],
          ordstatus := fun _ _ => none, venueCancels := [] }) ∧
    (OandaBroker.fill 4
        (OandaBroker.setOrder OandaBroker.empty
          ⟨9, none, true, "EURUSD", OStatus.Completed, 0, false⟩)
        9 2 (3/2) "ORDER_FILLED" =
      { OandaBroker.setOrder OandaBroker.empty
          ⟨9, none, true, "EURUSD", OStatus.Completed, 0, false⟩ with
        log := (OandaBroker.setOrder OandaBroker.empty
          ⟨9, none, true, "EURUSD", OStatus.Completed, 0, false⟩).log ++
          [oandaFillNotBracketMsg 9] }) := by
  constructor
  · exact ⟨rfl, unknown_venue_message_dropped.1 _ ⟨7, "Filled", 3⟩ rfl⟩
  · exact unknown_venue_message_dropped.2 _ 4 9 2 (3/2) "ORDER_FILLED"
      ⟨9, none, true, "EURUSD", OStatus.Completed, 0, false⟩ rfl rfl rfl

/-- Claim C6: cancelling an already-Cancelled order again is a no-op — the
IB and Oanda `cancel` methods return without touching any state or
notifying, and a redelivered Cancelled status message is absorbed by
`push_orderstatus`'s duplicate detection. -/
theorem cancel_already_cancelled_noop :
    (∀ (st : IBBrokerState) (o : IBOrderRec),
      o.status = OStatus.Cancelled → st.cancel o = st) ∧
    (∀ (st : OandaBroker) (o : OandaOrder),
      o.status = OStatus.Cancelled → st.cancel o = st) ∧
    (∀ (st : IBBrokerState) (msg : IBMsg) (o : IBOrderRec),
      st.orderbyid msg.orderId = some o → o.status = OStatus.Cancelled →
      msg.status = "Cancelled" → st.push_orderstatus msg = st) := by
  refine ⟨?_, ?_, ?_⟩
  · intro st o h
    unfold IBBrokerState.cancel
    cases st.orderbyid o.orderId <;> simp [h]
  · intro st o h
    unfold OandaBroker.cancel
    cases st.orders o.ref <;> simp [h]
  · intro st msg o h1 h2 h3
    simp [IBBrokerState.push_orderstatus, h1, h2, h3]

/-- Witness for C6: a Cancelled order with id 3 registered on a concrete
IB broker — both cancel paths and a redelivered Cancelled message leave
the state untouched. -/
theorem cancel_already_cancelled_noop_witness :
    (IBBrokerState.cancel
        (IBBrokerState.setOrder
          { orderbyid := fun _ => none, notifs := [],
            ordstatus := fun _ _ => none, venueCancels := [] }
          ⟨3, OStatus.Cancelled, false⟩)
        ⟨3, OStatus.Cancelled, false⟩ =
      IBBrokerState.setOrder
        { orderbyid := fun _ => none, notifs := [],
          ordstatus := fun _ _ => none, venueCancels := [] }
        ⟨3, OStatus.Cancelled, false⟩) ∧
    (OandaBroker.cancel OandaBroker.empty
        ⟨3, none, true, "EURUSD", OStatus.Cancelled, 0, false⟩ =
      OandaBroker.empty) ∧
    (IBBrokerState.push_orderstatus
        (IBBrokerState.setOrder
          { orderbyid := fun _ => none, notifs := [],
            ordstatus := fun _ _ => none, venueCancels := [] }
          ⟨3, OStatus.Cancelled, false⟩)
        ⟨3, "Cancelled", 0⟩ =
      IBBrokerState.setOrder
        { orderbyid := fun _ => none, notifs := [],
          ordstatus := fun _ _ => none, venueCancels := [] }
        ⟨3, OStatus.Cancelled, false⟩) := by
  refine ⟨?_, ?_, ?_⟩
  · exact cancel_already_cancelled_noop.1 _ ⟨3, OStatus.Cancelled, false⟩ rfl
  · exact cancel_already_cancelled_noop.2.1 _
      ⟨3, none, true, "EURUSD", OStatus.Cancelled, 0, false⟩ rfl
  · exact cancel_already_cancelled_noop.2.2 _ ⟨3, "Cancelled", 0⟩
      ⟨3, OStatus.Cancelled, false⟩ (by simp [IBBrokerState.setOrder]) rfl rfl

/-! ## The bracket protocol scenario (C4) -/

/-- A bracket parent order: no parent reference, `transmit=False`. -/
def bracketParent (pr : Nat) (dn : String) (rp : ℚ) : OandaOrder :=
  ⟨pr, none, false, dn, .Created, rp, false⟩

/-- The stop-side child: references the parent, `transmit=False`. -/
def bracketStop (pr sr : Nat) (dn : String) (rs : ℚ) : OandaOrder :=
  ⟨sr, some pr, false, dn, .Created, rs, false⟩

/-- The take-side child: references the parent, `transmit=True`. -/
def bracketTake (pr tr : Nat) (dn : String) (rt : ℚ) : OandaOrder :=
  ⟨tr, some pr, true, dn, .Created, rt, false⟩

/-- Broker state after submitting only the parent. -/
def bracketAfterParent (pr : Nat) (dn : String) (rp : ℚ) : OandaBroker :=
  (OandaBroker.empty.transmitOrder (bracketParent pr dn rp)).1

/-- Broker state after submitting parent and stop child. -/
def bracketAfterStop (pr sr : Nat) (dn : String) (rp rs : ℚ) : OandaBroker :=
  ((bracketAfterParent pr dn rp).transmitOrder (bracketStop pr sr dn rs)).1

/-- Broker state after the take child arrives, completing the triple. -/
def bracketAfterTake (pr sr tr : Nat) (dn : String) (rp rs rt : ℚ) :
    OandaBroker :=
  ((bracketAfterStop pr sr dn rp rs).transmitOrder (bracketTake pr tr dn rt)).1

/-- Broker state after the venue acknowledges the parent (`_accept`) and
then reports its complete fill (`_fill` for the parent's full remaining
size). -/
def bracketAfterParentFill (pr sr tr : Nat) (dn : String) (rp rs rt pxp : ℚ) :
    OandaBroker :=
  OandaBroker.fill 4
    (OandaBroker.acceptRef (bracketAfterTake pr sr tr dn rp rs rt) pr)
    pr rp pxp "ORDER_FILLED"

/-- Broker state after one child (reference `child`, remaining size `rsz`)
fills completely following the parent's fill. -/
def bracketAfterChildFill (pr sr tr : Nat) (dn : String)
    (rp rs rt pxp : ℚ) (child : Nat) (rsz px : ℚ) : OandaBroker :=
  OandaBroker.fill 4 (bracketAfterParentFill pr sr tr dn rp rs rt pxp)
    child rsz px "ORDER_FILLED"

/-- Claim C4: for every bracket triple submitted as parent
(`transmit=False`), stop child (`transmit=False`), take child
(`transmit=True`) with distinct references — the first two are only
buffered (no venue call, not even registered in `orders`); the take
child's arrival makes exactly one `order_create` call carrying all three;
the parent's complete fill activates both children (now Accepted and
activated) with no further venue submission; and either child's complete
fill cancels the other child. -/
theorem bracket_submit_activate_oco (pr sr tr : Nat) (dn : String)
    (rp rs rt pxp pxs pxt : ℚ)
    (hps : pr ≠ sr) (hpt : pr ≠ tr) (hst : sr ≠ tr) :
    ((bracketAfterParent pr dn rp).venueCreates = [] ∧
      (bracketAfterParent pr dn rp).orders pr = none) ∧
    ((bracketAfterStop pr sr dn rp rs).venueCreates = [] ∧
      (bracketAfterStop pr sr dn rp rs).orders pr = none ∧
      (bracketAfterStop pr sr dn rp rs).orders sr = none ∧
      (bracketAfterStop pr sr dn rp rs).opending pr =
        [bracketParent pr dn rp, bracketStop pr sr dn rs]) ∧
    (bracketAfterTake pr sr tr dn rp rs rt).venueCreates = [[pr, sr, tr]] ∧
    ((bracketAfterParentFill pr sr tr dn rp rs rt pxp).orders sr =
        some ⟨sr, some pr, false, dn, .Accepted, rs, true⟩ ∧
      (bracketAfterParentFill pr sr tr dn rp rs rt pxp).orders tr =
        some ⟨tr, some pr, true, dn, .Accepted, rt, true⟩ ∧
      (bracketAfterParentFill pr sr tr dn rp rs rt pxp).venueCreates =
        [[pr, sr, tr]]) ∧
    (bracketAfterChildFill pr sr tr dn rp rs rt pxp sr rs pxs).orders tr =
      some ⟨tr, some pr, true, dn, .Cancelled, rt, true⟩ ∧
    (bracketAfterChildFill pr sr tr dn rp rs rt pxp tr rt pxt).orders sr =
      some ⟨sr, some pr, false, dn, .Cancelled, rs, true⟩ := by
  simp [bracketAfterParent, bracketAfterStop, bracketAfterTake,
    bracketAfterParentFill, bracketAfterChildFill,
    bracketParent, bracketStop, bracketTake,
    OandaBroker.transmitOrder, OandaBroker.empty, OandaOrder.pref,
    OandaBroker.acceptRef, OandaBroker.bracketnotif, OandaBroker.setOrder,
    OandaBroker.notify, OandaBroker.fill, OandaBroker.fillExec,
    OandaBroker.bracketize, OandaBroker.activateRef, OandaBroker.cancelRef,
    OStatus.alive,
    hps, hpt, hst, Ne.symm hps, Ne.symm hpt, Ne.symm hst]

/-- Witness for C4: the scenario with references 1, 2, 3 on instrument
EURUSD, sizes 100 and fill prices 10, 9, 11. -/
theorem bracket_submit_activate_oco_witness :
    ((1 : Nat) ≠ 2 ∧ (1 : Nat) ≠ 3 ∧ (2 : Nat) ≠ 3) ∧
    (bracketAfterTake 1 2 3 "EURUSD" 100 100 100).venueCreates =
      [[1, 2, 3]] ∧
    (bracketAfterParentFill 1 2 3 "EURUSD" 100 100 100 10).orders 2 =
      some ⟨2, some 1, false, "EURUSD", .Accepted, 100, true⟩ ∧
    (bracketAfterChildFill 1 2 3 "EURUSD" 100 100 100 10 2 100 9).orders 3 =
      some ⟨3, some 1, true, "EURUSD", .Cancelled, 100, true⟩ := by
  obtain ⟨-, -, h3, ⟨h4a, -, -⟩, h5, -⟩ :=
    bracket_submit_activate_oco 1 2 3 "EURUSD" 100 100 100 10 9 11
      (by decide) (by decide) (by decide)
  exact ⟨⟨by decide, by decide, by decide⟩, h3, h4a, h5⟩

/-! ## MetaBroker attribute translation (broker.py lines 52-73) -/

/-- One iteration of the `MetaBroker.__init__` translation loop for the
pair `(attr, trans)`: when the class lacks `attr`, the source executes
`setattr(cls, name, getattr(cls, trans))` — `name` being the CLASS NAME,
not `attr`.  A class is embedded as its attribute-resolution map from
attribute name to the identity of the bound method (`none` = `hasattr`
false, in which case `getattr` would raise and the state is left
unchanged; the base class always defines `getcash`/`getvalue`). -/
def metaBrokerStep (clsName attr trans : String)
    (attrs : String → Option String) : String → Option String :=
  if (attrs attr).isSome then attrs
  else
    match attrs trans with
    | some v => fun a => if a = clsName then some v else attrs a
    | none => attrs

/-- `MetaBroker.__init__` after class creation: run the translation loop
over `{'get_cash': 'getcash', 'get_value': 'getvalue'}` in dict insertion
order. -/
def metaBrokerInit (clsName : String) (attrs : String → Option String) :
    String → Option String :=
  metaBrokerStep clsName "get_value" "getvalue"
    (metaBrokerStep clsName "get_cash" "getcash" attrs)

/-- Claim C10: for a broker class (whose name is none of the attribute
names involved) defining `getcash`/`getvalue` but neither `get_cash` nor
`get_value`, `MetaBroker.__init__` does NOT install the documented
aliases: `get_cash` and `get_value` are still absent afterwards, and
instead an attribute named after the class itself ends up bound
(ultimately to the `getvalue` method, the last loop iteration
overwriting the first). -/
theorem metabroker_alias_bug (clsName : String)
    (attrs : String → Option String) (gc gv : String)
    (hgc : attrs "getcash" = some gc) (hgv : attrs "getvalue" = some gv)
    (hac : attrs "get_cash" = none) (hav : attrs "get_value" = none)
    (hn1 : clsName ≠ "get_cash") (hn2 : clsName ≠ "get_value")
    (hn3 : clsName ≠ "getcash") (hn4 : clsName ≠ "getvalue") :
    metaBrokerInit clsName attrs "get_cash" = none ∧
    metaBrokerInit clsName attrs "get_value" = none ∧
    metaBrokerInit clsName attrs clsName = some gv := by
  simp only [metaBrokerInit, metaBrokerStep, hac, hav, hgc, hgv,
    Option.isSome_none, Bool.false_eq_true, if_false]
  simp [hn1, hn2, hn3, hn4, Ne.symm hn1, Ne.symm hn2, Ne.symm hn3,
    Ne.symm hn4, hac, hav]

/-- Witness for C10: a class named MyBroker inheriting `getcash` and
`getvalue` but defining neither alias — after class creation the aliases
are still missing and the attribute `MyBroker` holds the `getvalue`
method. -/
theorem metabroker_alias_bug_witness :
    (metaBrokerInit "MyBroker"
        (fun a => if a = "getcash" then some "getcash-impl"
          else if a = "getvalue" then some "getvalue-impl" else none)
        "get_cash" = none) ∧
    (metaBrokerInit "MyBroker"
        (fun a => if a = "getcash" then some "getcash-impl"
          else if a = "getvalue" then some "getvalue-impl" else none)
        "get_value" = none) ∧
    (metaBrokerInit "MyBroker"
        (fun a => if a = "getcash" then some "getcash-impl"
          else if a = "getvalue" then some "getvalue-impl" else none)
        "MyBroker" = some "getvalue-impl") := by
  exact metabroker_alias_bug "MyBroker" _ "getcash-impl" "getvalue-impl"
    (by simp) (by simp) (by simp) (by simp)
    (by simp) (by simp) (by simp) (by simp)
